import Mathlib

set_option autoImplicit false

/-!
Shallow embedding of `httpclient.go` (package httpclient, version 0.3.9):
the connection-caching HTTP client wrapping Go's built-in client.

Go strings are modelled as `List Char`; Go maps (`h.cachedConns`,
`h.connMap`) as association lists; `net.Conn` values as numeric
identifiers, with the set of closed connections tracked explicitly in the
state. Request/response I/O outcomes (write, flush, read) are parameters
of `exec`, since the wire itself is outside the program.
-/

namespace GoHttpClient

abbrev Str := List Char

/-- Go `strings.LastIndex(s, c)` for a single-character needle: index of
the last occurrence of `c` in `s`, `-1` when absent (httpclient.go:289
uses it on `":"` and `"]"`; relative order of single-char occurrences is
the same for byte and rune indices). -/
def lastIdx : Str → Char → Int
  | [], _ => -1
  | a :: rest, c =>
    let r := lastIdx rest c
    if r ≥ 0 then r + 1
    else if a = c then 0 else -1

/-- `hasPort` (httpclient.go:289): true iff the last `':'` occurs after the
last `']'` (handles bracketed IPv6 literals). -/
def hasPort (s : Str) : Bool := lastIdx s ':' > lastIdx s ']'

/-- `canonicalAddr` (httpclient.go:275-285): append the scheme's default
port when the host has none; otherwise return the host unchanged. -/
def canonicalAddr (s scheme : Str) : Str :=
  if hasPort s then s
  else if scheme = "http".data ∨ scheme = "hc_http".data then s ++ ":80".data
  else if scheme = "https".data ∨ scheme = "hc_https".data then s ++ ":443".data
  else s

/-- Go map lookup on an association list. -/
def lookupA {α β : Type} [DecidableEq α] : List (α × β) → α → Option β
  | [], _ => none
  | (k0, v0) :: rest, k => if k = k0 then some v0 else lookupA rest k

/-- Go map assignment `m[k] = v` on an association list. -/
def insertA {α β : Type} [DecidableEq α] : List (α × β) → α → β → List (α × β)
  | [], k, v => [(k, v)]
  | (k0, v0) :: rest, k, v =>
    if k = k0 then (k, v) :: rest else (k0, v0) :: insertA rest k v

/-- Go `delete(m, k)` on an association list. -/
def eraseA {α β : Type} [DecidableEq α] : List (α × β) → α → List (α × β)
  | [], _ => []
  | (k0, v0) :: rest, k =>
    if k = k0 then eraseA rest k else (k0, v0) :: eraseA rest k

/-- `connCache` (httpclient.go:26-29): per-address idle list (`dl`, front
of the Lean list is the front of the `container/list` doubly-linked list)
and the `outstanding` counter. -/
structure ConnCache where
  dl : List Nat
  outstanding : Int
deriving DecidableEq, Repr

/-- `cachedConn` (httpclient.go:21-24): a raw connection plus the
`shouldClose` flag. -/
structure CachedConn where
  conn : Nat
  shouldClose : Bool
deriving DecidableEq, Repr

/-- The mutable state of an `HttpClient` (httpclient.go:36-47) relevant to
the cache and registry: `cachedConns`, `connMap`, the per-host limit, and
a ledger of which raw connections have been `Close()`d. -/
structure ClientState where
  cachedConns : List (Str × ConnCache)
  connMap : List (Nat × CachedConn)
  closedConns : List Nat
  MaxConnsPerHost : Int
deriving DecidableEq, Repr

/-- An `*http.Request` as far as this client inspects it: an identity (map
key), `URL.Host` and `URL.Scheme`. -/
structure Request where
  id : Nat
  host : Str
  scheme : Str
deriving DecidableEq, Repr

/-- `checkConnCache` (httpclient.go:143-171): pop the front idle
connection for `addr` if the address is known and has one, registering a
fresh empty entry otherwise; then fail when `outstanding >
MaxConnsPerHost` (note: the list mutation has already happened when the
capacity check runs, exactly as in the source). -/
def checkConnCache (h : ClientState) (addr : Str) :
    Except String (Option Nat) × ClientState :=
  match lookupA h.cachedConns addr with
  | some cc =>
    match cc.dl with
    | [] =>
      if cc.outstanding > h.MaxConnsPerHost then
        (.error "too many outstanding conns on this addr", h)
      else
        (.ok none, h)
    | c :: rest =>
      let h1 : ClientState :=
        { h with cachedConns := insertA h.cachedConns addr { cc with dl := rest } }
      if cc.outstanding > h.MaxConnsPerHost then
        (.error "too many outstanding conns on this addr", h1)
      else
        (.ok (some c), h1)
  | none =>
    let h1 : ClientState :=
      { h with cachedConns := insertA h.cachedConns addr { dl := [], outstanding := 0 } }
    if (0 : Int) > h.MaxConnsPerHost then
      (.error "too many outstanding conns on this addr", h1)
    else
      (.ok none, h1)

/-- `cacheConn` (httpclient.go:173-184): push the connection at the back
of `addr`'s idle list; error when `addr` has no cache entry (the Go error
message literally contains the unformatted `%s`). -/
def cacheConn (h : ClientState) (addr : Str) (conn : Nat) :
    Except String Unit × ClientState :=
  match lookupA h.cachedConns addr with
  | none => (.error "addr %s not in cache map", h)
  | some cc =>
    (.ok (),
      { h with cachedConns := insertA h.cachedConns addr { cc with dl := cc.dl ++ [conn] } })

/-- The registry write in `RoundTrip` (httpclient.go:136-138):
`h.connMap[req] = &cachedConn{Conn: c}` after the connection is obtained
from the cache or dialed. -/
def bindConn (h : ClientState) (req : Request) (c : Nat) : ClientState :=
  { h with connMap := insertA h.connMap req.id { conn := c, shouldClose := false } }

/-- `exec` (httpclient.go:186-207). `writeOk`, `flushOk`, `readOk` are the
outcomes of `req.Write(bw)`, `bw.Flush()` and `http.ReadResponse(br,
req)`. A write error returns immediately, mutating nothing; the flush
error is discarded by the source (`bw.Flush()` with no assignment); only a
read error deletes the `connMap` entry and closes the connection. -/
def exec (h : ClientState) (req conn : Nat) (writeOk flushOk readOk : Bool) :
    Except String Unit × ClientState :=
  if writeOk = false then
    (.error "write error", h)
  else
    -- bw.Flush(): result discarded, `flushOk` intentionally unread
    if readOk = false then
      (.error "read error",
        { h with
            connMap := eraseA h.connMap req
            closedConns := conn :: h.closedConns })
    else
      (.ok (), h)

/-- `GetConn` (httpclient.go:211-221): look the request up in `connMap`,
error when absent. -/
def GetConn (h : ClientState) (req : Request) : Except String CachedConn :=
  match lookupA h.connMap req.id with
  | none => .error "connection not in map"
  | some c => .ok c

/-- `FinishRequest` (httpclient.go:250-273): `GetConn`, delete the
binding, then either close (`shouldClose`) or return the raw connection to
the cache under the request's canonical address. -/
def FinishRequest (h : ClientState) (req : Request) :
    Except String Unit × ClientState :=
  match GetConn h req with
  | .error e => (.error e, h)
  | .ok c =>
    let h1 : ClientState := { h with connMap := eraseA h.connMap req.id }
    if c.shouldClose then
      (.ok (), { h1 with closedConns := c.conn :: h1.closedConns })
    else
      cacheConn h1 (canonicalAddr req.host req.scheme) c.conn

/-- `DefaultRedirectPolicy` (httpclient.go:89-94): error once more than 3
prior requests have accumulated; `some msg` models a non-nil Go error,
`none` models nil. -/
def DefaultRedirectPolicy (req : Request) (via : List Request) : Option String :=
  if via.length > 3 then some "Stopped after 3 redirects" else none

/-- The close-marking step of `Do` (httpclient.go:231-237): when the inner
dispatch succeeded and `resp.Close || req.Close` holds, `conn, _ :=
h.GetConn(req)` discards the error and `conn.(*cachedConn).shouldClose =
true` is executed unconditionally. `none` models the run-time fault of the
type assertion / field write on a nil interface value; the function has no
error result because the source's branch returns none. -/
def doCloseMark (h : ClientState) (req : Request) (closeRequested : Bool) :
    Option ClientState :=
  if closeRequested then
    match lookupA h.connMap req.id with
    | none => none
    | some c =>
      some { h with connMap := insertA h.connMap req.id { c with shouldClose := true } }
  else
    some h

/-- The `hc_` scheme marker prepended by `Do` (httpclient.go:226-228). -/
def hcMark : Str := "hc_".data

/-- The scheme manipulation in `Do` (httpclient.go:224-243) for a request
that is not redirected, so that `resp.Request` is the caller's request:
prepend `hc_` unless already present, dispatch, and strip the marker from
`resp.Request.URL.Scheme` only when the returned response is non-nil
(`respPresent`). Returns the scheme the caller's request is left with. -/
def doScheme (scheme : Str) (respPresent : Bool) : Str :=
  let s1 := if hcMark.isPrefixOf scheme then scheme else hcMark ++ scheme
  if respPresent then
    if hcMark.isPrefixOf s1 then s1.drop 3 else s1
  else
    s1

/-! ### Association-list lemmas -/

theorem lookupA_insertA_self {α β : Type} [DecidableEq α] (m : List (α × β)) (k : α) (v : β) :
    lookupA (insertA m k v) k = some v := by
  induction m with
  | nil => simp [insertA, lookupA]
  | cons p rest ih =>
    obtain ⟨k0, v0⟩ := p
    by_cases h : k = k0
    · simp [insertA, lookupA, h]
    · simp [insertA, lookupA, h, ih]

theorem lookupA_eraseA_self {α β : Type} [DecidableEq α] (m : List (α × β)) (k : α) :
    lookupA (eraseA m k) k = none := by
  induction m with
  | nil => simp [eraseA, lookupA]
  | cons p rest ih =>
    obtain ⟨k0, v0⟩ := p
    by_cases h : k = k0
    · subst h
      simp [eraseA, ih]
    · simp [eraseA, lookupA, h, ih]

/-- Any list is a `List.isPrefixOf` of itself followed by anything. -/
theorem isPrefixOf_append_self {α : Type} [BEq α] [LawfulBEq α] (l s : List α) :
    l.isPrefixOf (l ++ s) = true := by
  induction l with
  | nil => simp [List.isPrefixOf]
  | cons a tl ih => simp [List.isPrefixOf, ih]

/-- `FinishRequest` on a request with no live binding: returns the
`GetConn` error and leaves the state untouched. -/
theorem FinishRequest_not_bound (S : ClientState) (req : Request)
    (hn : lookupA S.connMap req.id = none) :
    FinishRequest S req = (.error "connection not in map", S) := by
  unfold FinishRequest
  simp [GetConn, hn]

/-! ### Claims -/

/-- C4: `canonicalAddr` is pure; for every host string lacking an explicit
port (`hasPort` false: its last colon does not occur after its last
closing bracket) it appends `:80` for the plaintext schemes and `:443` for
the encrypted schemes, and for every host string with an explicit port it
returns the string unchanged for every scheme. -/
theorem spec_C4_canonicalAddr (s scheme : Str) :
    (hasPort s = false →
      canonicalAddr s "http".data = s ++ ":80".data ∧
      canonicalAddr s "hc_http".data = s ++ ":80".data ∧
      canonicalAddr s "https".data = s ++ ":443".data ∧
      canonicalAddr s "hc_https".data = s ++ ":443".data) ∧
    (hasPort s = true → canonicalAddr s scheme = s) := by
  constructor
  · intro h
    refine ⟨?_, ?_, ?_, ?_⟩ <;> simp [canonicalAddr, h]
  · intro h
    simp [canonicalAddr, h]

/-- C4 witness: concrete evaluations, a bare IPv4-style host, a bracketed
IPv6 literal without and with a port. -/
theorem spec_C4_canonicalAddr_witness :
    canonicalAddr "example.com".data "http".data = "example.com:80".data ∧
    canonicalAddr "[::1]".data "https".data = "[::1]:443".data ∧
    canonicalAddr "[::1]:8080".data "https".data = "[::1]:8080".data ∧
    canonicalAddr "example.com:9090".data "http".data = "example.com:9090".data :=
  ⟨((spec_C4_canonicalAddr "example.com".data "http".data).1 (by decide)).1,
   ((spec_C4_canonicalAddr "[::1]".data "https".data).1 (by decide)).2.2.1,
   (spec_C4_canonicalAddr "[::1]:8080".data "https".data).2 (by decide),
   (spec_C4_canonicalAddr "example.com:9090".data "http".data).2 (by decide)⟩

/-- C8: `DefaultRedirectPolicy` returns nil (`none`) for every
prior-request chain of length at most 3 and a non-nil error for every
chain whose length exceeds 3. -/
theorem spec_C8_redirect_policy (r : Request) (via : List Request) :
    (via.length ≤ 3 → DefaultRedirectPolicy r via = none) ∧
    (3 < via.length → DefaultRedirectPolicy r via = some "Stopped after 3 redirects") := by
  constructor
  · intro h
    unfold DefaultRedirectPolicy
    rw [if_neg (by omega)]
  · intro h
    unfold DefaultRedirectPolicy
    rw [if_pos (by omega)]

/-- C8 witness: a chain of 3 hops completes, a chain of 4 hops fails. -/
theorem spec_C8_redirect_policy_witness :
    DefaultRedirectPolicy { id := 9, host := [], scheme := [] }
      (List.replicate 3 { id := 0, host := [], scheme := [] }) = none ∧
    DefaultRedirectPolicy { id := 9, host := [], scheme := [] }
      (List.replicate 4 { id := 0, host := [], scheme := [] }) =
        some "Stopped after 3 redirects" :=
  ⟨(spec_C8_redirect_policy _ _).1 (by simp),
   (spec_C8_redirect_policy _ _).2 (by simp)⟩

/-- C7: `GetConn` fails with the NotBound error both before the request
has been dispatched (no `connMap` entry) and after `FinishRequest` has
completed for it (whatever branch that took); between a dispatch that
bound a connection (`bindConn`, the registry write of `RoundTrip`) and
`FinishRequest` it returns the bound connection. -/
theorem spec_C7_getconn_lifecycle (h : ClientState) (req : Request) :
    (lookupA h.connMap req.id = none → GetConn h req = .error "connection not in map") ∧
    (∀ c : Nat, GetConn (bindConn h req c) req = .ok { conn := c, shouldClose := false }) ∧
    GetConn (FinishRequest h req).2 req = .error "connection not in map" := by
  refine ⟨fun hnone => by simp [GetConn, hnone],
    fun c => by simp [GetConn, bindConn, lookupA_insertA_self], ?_⟩
  cases hl : lookupA h.connMap req.id with
  | none =>
    rw [FinishRequest_not_bound h req hl]
    simp [GetConn, hl]
  | some c =>
    have hcm : (FinishRequest h req).2.connMap = eraseA h.connMap req.id := by
      unfold FinishRequest
      simp only [GetConn, hl]
      by_cases hsc : c.shouldClose
      · simp [hsc]
      · simp only [hsc]
        unfold cacheConn
        cases hcl : lookupA h.cachedConns (canonicalAddr req.host req.scheme) <;> simp
    simp [GetConn, hcm, lookupA_eraseA_self]

/-- C7 witness: a fresh client has no binding for request 0; after binding
connection 7 the request resolves to it; after `FinishRequest` the lookup
fails again. -/
theorem spec_C7_getconn_lifecycle_witness :
    GetConn { cachedConns := [], connMap := [], closedConns := [], MaxConnsPerHost := 5 }
        { id := 0, host := "a".data, scheme := "http".data } = .error "connection not in map" ∧
    GetConn (bindConn { cachedConns := [], connMap := [], closedConns := [], MaxConnsPerHost := 5 }
        { id := 0, host := "a".data, scheme := "http".data } 7)
        { id := 0, host := "a".data, scheme := "http".data } =
      .ok { conn := 7, shouldClose := false } ∧
    GetConn (FinishRequest
        (bindConn { cachedConns := [], connMap := [], closedConns := [], MaxConnsPerHost := 5 }
          { id := 0, host := "a".data, scheme := "http".data } 7)
        { id := 0, host := "a".data, scheme := "http".data }).2
        { id := 0, host := "a".data, scheme := "http".data } = .error "connection not in map" :=
  ⟨(spec_C7_getconn_lifecycle _ _).1 rfl,
   (spec_C7_getconn_lifecycle _ _).2.1 7,
   (spec_C7_getconn_lifecycle _ _).2.2⟩

/-- C9: when the inner dispatch reports close semantics but no binding
exists in `connMap`, the close-marking step of `Do` ends in the nil
dereference (`none`): the discarded `GetConn` error leaves `conn` nil and
the type assertion/field write faults instead of returning an error. -/
theorem spec_C9_do_close_mark_nil (h : ClientState) (req : Request)
    (hnb : lookupA h.connMap req.id = none) :
    doCloseMark h req true = none := by
  simp [doCloseMark, hnb]

/-- C9 witness: the fresh client carries no binding for the request, so
the marking step faults. -/
theorem spec_C9_do_close_mark_nil_witness :
    doCloseMark { cachedConns := [], connMap := [], closedConns := [], MaxConnsPerHost := 5 }
      { id := 0, host := "a".data, scheme := "http".data } true = none :=
  spec_C9_do_close_mark_nil _ _ rfl

/-- C10: `Do` prefixes the caller's scheme with `hc_` before dispatch;
when the dispatch returns a non-nil response (whose `Request` is the
caller's request, the non-redirected case) the marker is stripped again,
but when it returns an error (nil response) the caller's scheme is left
with the `hc_` marker: the mutation is not rolled back. -/
theorem spec_C10_scheme_mutation (scheme : Str)
    (hns : hcMark.isPrefixOf scheme = false) :
    doScheme scheme false = hcMark ++ scheme ∧
    hcMark ++ scheme ≠ scheme ∧
    doScheme scheme true = scheme := by
  refine ⟨by simp [doScheme, hns], ?_, ?_⟩
  · intro heq
    have hlen := congrArg List.length heq
    simp [hcMark] at hlen
    omega
  · simp only [doScheme, hns, Bool.false_eq_true, if_false, if_neg]
    rw [isPrefixOf_append_self]
    simp only [if_true]
    rfl

/-- C10 witness: for the scheme `http`, a failed `Do` leaves the caller's
request with scheme `hc_http`, while a successful one restores `http`. -/
theorem spec_C10_scheme_mutation_witness :
    doScheme "http".data false = "hc_http".data ∧
    doScheme "http".data true = "http".data :=
  ⟨((spec_C10_scheme_mutation "http".data (by decide)).1),
   ((spec_C10_scheme_mutation "http".data (by decide)).2.2)⟩

/-- A one-address, one-bound-connection client used to evaluate the C1
scenario: connection 7 is checked out (bound to request 0), the cache
entry for `a:80` is empty. -/
def c1State : ClientState :=
  { cachedConns := [("a:80".data, { dl := [], outstanding := 0 })]
    connMap := [(0, { conn := 7, shouldClose := false })]
    closedConns := []
    MaxConnsPerHost := 5 }

/-- The request bound in `c1State`. -/
def c1Req : Request := { id := 0, host := "a".data, scheme := "http".data }

/-- C1 counterexample: the wire exchange for request 0 fails with a
non-nil write error (`req.Write` fails in `exec`), yet the connection
stays bound in `connMap`, is not closed, and a later `FinishRequest` puts
it into the cache at `a:80` — refuting both "closed and removed" and
"never present in the cache afterward". -/
theorem spec_C1_counterexample :
    (exec c1State 0 7 false true true).1 = .error "write error" ∧
    (exec c1State 0 7 false true true).2 = c1State ∧
    lookupA (exec c1State 0 7 false true true).2.connMap 0 =
      some { conn := 7, shouldClose := false } ∧
    (exec c1State 0 7 false true true).2.closedConns = [] ∧
    (FinishRequest (exec c1State 0 7 false true true).2 c1Req).2.cachedConns =
      [("a:80".data, { dl := [7], outstanding := 0 })] :=
  ⟨rfl, rfl, rfl, rfl, rfl⟩

/-- C1 amended: only a read (or read-deadline) error in `exec` closes the
bound connection and removes it from `connMap` — and the connection, being
checked out and so absent from every idle list, stays out of the cache;
a write error returns the error with the registry and cache untouched,
and the flush error is discarded by the source and never surfaces. -/
theorem spec_C1_amended (h : ClientState) (req conn : Nat) (fo : Bool)
    (hnotcached : ∀ addr cc, lookupA h.cachedConns addr = some cc → conn ∉ cc.dl) :
    (lookupA (exec h req conn true fo false).2.connMap req = none ∧
     conn ∈ (exec h req conn true fo false).2.closedConns ∧
     (∀ addr cc, lookupA (exec h req conn true fo false).2.cachedConns addr = some cc →
        conn ∉ cc.dl)) ∧
    ((exec h req conn false fo true).1 = .error "write error" ∧
     (exec h req conn false fo true).2 = h) := by
  refine ⟨⟨?_, ?_, ?_⟩, rfl, rfl⟩
  · exact lookupA_eraseA_self _ _
  · exact List.mem_cons_self _ _
  · exact hnotcached

/-- C1 amended witness: the read-error path on the concrete one-connection
client unbinds and closes connection 7 and leaves every idle list free of
it, while the write-error path changes nothing. -/
theorem spec_C1_amended_witness :
    (lookupA (exec c1State 0 7 true true false).2.connMap 0 = none ∧
     7 ∈ (exec c1State 0 7 true true false).2.closedConns ∧
     (∀ addr cc, lookupA (exec c1State 0 7 true true false).2.cachedConns addr = some cc →
        7 ∉ cc.dl)) ∧
    ((exec c1State 0 7 false true true).1 = .error "write error" ∧
     (exec c1State 0 7 false true true).2 = c1State) :=
  spec_C1_amended c1State 0 7 true (by
    intro addr cc hl hmem
    unfold c1State at hl
    by_cases ha : addr = "a:80".data
    · subst ha
      simp [lookupA] at hl
      rw [← hl] at hmem
      simp at hmem
    · simp [lookupA, ha] at hl)

/-- The empty client with a per-host maximum of 0 used to evaluate C2. -/
def c2State : ClientState :=
  { cachedConns := [], connMap := [], closedConns := [], MaxConnsPerHost := 0 }

/-- C2 evaluation at the failing input: with `MaxConnsPerHost = 0`, three
successive checkouts at `a:80` (each obliging the caller to dial a fresh
connection, none returned) all succeed, and `outstanding` is still 0
afterwards — the source never updates it (TODO at httpclient.go:165) and
compares with strict `>`, so `take` never fails for any max ≥ 0. -/
theorem spec_C2_code_bug_eval :
    (checkConnCache c2State "a:80".data).1 = .ok none ∧
    (checkConnCache (checkConnCache c2State "a:80".data).2 "a:80".data).1 = .ok none ∧
    (checkConnCache (checkConnCache (checkConnCache c2State "a:80".data).2
        "a:80".data).2 "a:80".data).1 = .ok none ∧
    lookupA (checkConnCache (checkConnCache (checkConnCache c2State "a:80".data).2
        "a:80".data).2 "a:80".data).2.cachedConns "a:80".data =
      some { dl := [], outstanding := 0 } :=
  ⟨rfl, rfl, rfl, rfl⟩

/-- A client with a registered, empty idle list at `a:80` used for the C3
scenario. -/
def c3State : ClientState :=
  { cachedConns := [("a:80".data, { dl := [], outstanding := 0 })]
    connMap := []
    closedConns := []
    MaxConnsPerHost := 5 }

/-- C3 counterexample: release connection 1, then connection 2, at the
same address; the next take returns connection 1 — the oldest-released —
not the most recently released connection 2 the claim promises. -/
theorem spec_C3_counterexample :
    (checkConnCache (cacheConn (cacheConn c3State "a:80".data 1).2 "a:80".data 2).2
        "a:80".data).1 = .ok (some 1) ∧
    (checkConnCache (cacheConn (cacheConn c3State "a:80".data 1).2 "a:80".data 2).2
        "a:80".data).1 ≠ .ok (some 2) := by
  have h1 : (checkConnCache (cacheConn (cacheConn c3State "a:80".data 1).2 "a:80".data 2).2
      "a:80".data).1 = .ok (some 1) := rfl
  refine ⟨h1, ?_⟩
  rw [h1]
  simp

/-- C3 amended: the per-address idle list is reused FIFO, not LIFO:
`cacheConn` appends the released connection at the back of the list and
`checkConnCache` pops the front, so the connection returned by a take is
the oldest-released idle one, with the most recently released sitting at
the back. -/
theorem spec_C3_amended (h : ClientState) (addr : Str) (cc : ConnCache) (c : Nat)
    (hl : lookupA h.cachedConns addr = some cc) :
    lookupA (cacheConn h addr c).2.cachedConns addr = some { cc with dl := cc.dl ++ [c] } ∧
    (∀ x xs, cc.dl = x :: xs → cc.outstanding ≤ h.MaxConnsPerHost →
      checkConnCache h addr =
        (.ok (some x),
          { h with cachedConns := insertA h.cachedConns addr { cc with dl := xs } })) := by
  constructor
  · unfold cacheConn
    rw [hl]
    exact lookupA_insertA_self _ _ _
  · intro x xs hdl hmax
    simp only [checkConnCache, hl, hdl]
    rw [if_neg (not_lt.mpr hmax)]

/-- C3 amended witness: with idle list `[1, 2]` at `a:80`, releasing
connection 3 yields `[1, 2, 3]`, and a take returns 1 leaving `[2, 3]`. -/
theorem spec_C3_amended_witness :
    lookupA (cacheConn
        { cachedConns := [("a:80".data, { dl := [1, 2], outstanding := 0 })]
          connMap := [], closedConns := [], MaxConnsPerHost := 5 }
        "a:80".data 3).2.cachedConns "a:80".data =
      some { dl := [1, 2, 3], outstanding := 0 } ∧
    checkConnCache
        { cachedConns := [("a:80".data, { dl := [1, 2], outstanding := 0 })]
          connMap := [], closedConns := [], MaxConnsPerHost := 5 }
        "a:80".data =
      (.ok (some 1),
        { cachedConns := [("a:80".data, { dl := [2], outstanding := 0 })]
          connMap := [], closedConns := [], MaxConnsPerHost := 5 }) := by
  have h := spec_C3_amended
    { cachedConns := [("a:80".data, { dl := [1, 2], outstanding := 0 })]
      connMap := [], closedConns := [], MaxConnsPerHost := 5 }
    "a:80".data { dl := [1, 2], outstanding := 0 } 3 rfl
  exact ⟨h.1, h.2 1 [2] rfl (by decide)⟩

/-- C5: for a dispatched request whose bound connection is not marked
`shouldClose`, `FinishRequest` removes the binding and appends the raw
connection to the cache list of the request's canonical address (which
dispatch registered, and which is empty while its one connection is
checked out), after which a take for that same canonical address returns
that connection. -/
theorem spec_C5_reuse_roundtrip (h : ClientState) (req : Request)
    (c : CachedConn) (cc : ConnCache)
    (hb : lookupA h.connMap req.id = some c)
    (hsc : c.shouldClose = false)
    (hcl : lookupA h.cachedConns (canonicalAddr req.host req.scheme) = some cc)
    (hdl : cc.dl = [])
    (hmax : cc.outstanding ≤ h.MaxConnsPerHost) :
    (FinishRequest h req).1 = .ok () ∧
    lookupA (FinishRequest h req).2.connMap req.id = none ∧
    (checkConnCache (FinishRequest h req).2 (canonicalAddr req.host req.scheme)).1 =
      .ok (some c.conn) := by
  have hstate : FinishRequest h req =
      (.ok (),
        { h with
            connMap := eraseA h.connMap req.id
            cachedConns := insertA h.cachedConns (canonicalAddr req.host req.scheme)
              { cc with dl := [c.conn] } }) := by
    unfold FinishRequest
    simp only [GetConn, hb, hsc, Bool.false_eq_true, if_false]
    unfold cacheConn
    simp only [hcl, hdl, List.nil_append]
  rw [hstate]
  refine ⟨rfl, lookupA_eraseA_self _ _, ?_⟩
  simp only [checkConnCache, lookupA_insertA_self]
  rw [if_neg (not_lt.mpr hmax)]

/-- C5 witness: request 0 holds connection 7 checked out from `a:80`;
`FinishRequest` succeeds, unbinds it, and the next take at `a:80` hands
connection 7 back. -/
theorem spec_C5_reuse_roundtrip_witness :
    (FinishRequest
        { cachedConns := [("a:80".data, { dl := [], outstanding := 0 })]
          connMap := [(0, { conn := 7, shouldClose := false })]
          closedConns := [], MaxConnsPerHost := 5 }
        { id := 0, host := "a".data, scheme := "http".data }).1 = .ok () ∧
    lookupA (FinishRequest
        { cachedConns := [("a:80".data, { dl := [], outstanding := 0 })]
          connMap := [(0, { conn := 7, shouldClose := false })]
          closedConns := [], MaxConnsPerHost := 5 }
        { id := 0, host := "a".data, scheme := "http".data }).2.connMap 0 = none ∧
    (checkConnCache (FinishRequest
        { cachedConns := [("a:80".data, { dl := [], outstanding := 0 })]
          connMap := [(0, { conn := 7, shouldClose := false })]
          closedConns := [], MaxConnsPerHost := 5 }
        { id := 0, host := "a".data, scheme := "http".data }).2
      (canonicalAddr "a".data "http".data)).1 = .ok (some 7) :=
  spec_C5_reuse_roundtrip _ _ { conn := 7, shouldClose := false }
    { dl := [], outstanding := 0 } (by decide) rfl (by decide) rfl (by decide)

/-- C6: for a request with a live binding (whose release succeeds: either
the connection is marked `shouldClose`, or its canonical address is
registered so the cache put lands), the first `FinishRequest` succeeds and
the second fails with the NotBound error while leaving the whole state —
cache and registry — exactly as the first call left it. -/
theorem spec_C6_finish_twice (h : ClientState) (req : Request) (c : CachedConn)
    (hb : lookupA h.connMap req.id = some c)
    (hcache : c.shouldClose = true ∨
      (lookupA h.cachedConns (canonicalAddr req.host req.scheme)).isSome = true) :
    (FinishRequest h req).1 = .ok () ∧
    (FinishRequest (FinishRequest h req).2 req).1 = .error "connection not in map" ∧
    (FinishRequest (FinishRequest h req).2 req).2 = (FinishRequest h req).2 := by
  have hmain : (FinishRequest h req).1 = .ok () ∧
      (FinishRequest h req).2.connMap = eraseA h.connMap req.id := by
    unfold FinishRequest
    simp only [GetConn, hb]
    by_cases hsc : c.shouldClose
    · simp [hsc]
    · rcases hcache with hsc' | hsome
      · exact absurd hsc' hsc
      · cases hcl : lookupA h.cachedConns (canonicalAddr req.host req.scheme) with
        | none => rw [hcl] at hsome; simp at hsome
        | some cc => simp [hsc, cacheConn, hcl]
  have hgone : lookupA (FinishRequest h req).2.connMap req.id = none := by
    rw [hmain.2]
    exact lookupA_eraseA_self _ _
  have hsecond := FinishRequest_not_bound (FinishRequest h req).2 req hgone
  exact ⟨hmain.1, by rw [hsecond], by rw [hsecond]⟩

/-- C6 witness: both flavors of a successful first call — a `shouldClose`
connection, and a cacheable one at a registered address — followed by a
failing, state-preserving second call. -/
theorem spec_C6_finish_twice_witness :
    ((FinishRequest
        { cachedConns := [("a:80".data, { dl := [], outstanding := 0 })]
          connMap := [(0, { conn := 7, shouldClose := false })]
          closedConns := [], MaxConnsPerHost := 5 }
        { id := 0, host := "a".data, scheme := "http".data }).1 = .ok () ∧
     (FinishRequest (FinishRequest
        { cachedConns := [("a:80".data, { dl := [], outstanding := 0 })]
          connMap := [(0, { conn := 7, shouldClose := false })]
          closedConns := [], MaxConnsPerHost := 5 }
        { id := 0, host := "a".data, scheme := "http".data }).2
        { id := 0, host := "a".data, scheme := "http".data }).1 =
       .error "connection not in map" ∧
     (FinishRequest (FinishRequest
        { cachedConns := [("a:80".data, { dl := [], outstanding := 0 })]
          connMap := [(0, { conn := 7, shouldClose := false })]
          closedConns := [], MaxConnsPerHost := 5 }
        { id := 0, host := "a".data, scheme := "http".data }).2
        { id := 0, host := "a".data, scheme := "http".data }).2 =
       (FinishRequest
        { cachedConns := [("a:80".data, { dl := [], outstanding := 0 })]
          connMap := [(0, { conn := 7, shouldClose := false })]
          closedConns := [], MaxConnsPerHost := 5 }
        { id := 0, host := "a".data, scheme := "http".data }).2) ∧
    ((FinishRequest
        { cachedConns := []
          connMap := [(1, { conn := 9, shouldClose := true })]
          closedConns := [], MaxConnsPerHost := 5 }
        { id := 1, host := "b".data, scheme := "http".data }).1 = .ok () ∧
     (FinishRequest (FinishRequest
        { cachedConns := []
          connMap := [(1, { conn := 9, shouldClose := true })]
          closedConns := [], MaxConnsPerHost := 5 }
        { id := 1, host := "b".data, scheme := "http".data }).2
        { id := 1, host := "b".data, scheme := "http".data }).1 =
       .error "connection not in map") :=
  ⟨spec_C6_finish_twice _ _ { conn := 7, shouldClose := false } (by decide)
      (Or.inr (by decide)),
   (spec_C6_finish_twice _ _ { conn := 9, shouldClose := true } (by decide)
      (Or.inl rfl)).1,
   (spec_C6_finish_twice _ _ { conn := 9, shouldClose := true } (by decide)
      (Or.inl rfl)).2.1⟩

end GoHttpClient
